import Mathlib

/-!
Verification of the advanced-workflow ticket operation engine
(`advancedworkflow/controller.py`).

The Python source is shallowly embedded below.  Strings are Lean `String`s,
but every string algorithm the source relies on (Python `str.strip`,
`str.split`, `%`-formatting, `int(...)` parsing) is re-implemented here by
structural recursion over character lists so that every definition reduces
inside the kernel.  Stateful pieces (the request object with its submitted
form values and accumulated warnings, the log, filesystem and process
effects, ticket saves and notification dispatches) are modelled by explicit
state passing and effect traces.  Python exceptions are modelled with
`Except`.
-/

set_option maxRecDepth 4000

namespace AdvancedWorkflow

/-- Characters Python's `str.strip()` removes (the whitespace class). -/
def pyWhitespace (c : Char) : Bool :=
  c = ' ' || c = '\t' || c = '\n' || c = '\r' || c = '\x0b' || c = '\x0c'

/-- Remove leading and trailing whitespace from a character list. -/
def pyStripL (l : List Char) : List Char :=
  ((l.dropWhile pyWhitespace).reverse.dropWhile pyWhitespace).reverse

/-- Python `s.strip()`. -/
def pyStrip (s : String) : String :=
  String.mk (pyStripL s.toList)

/-- Python `s.strip('#')`: remove leading and trailing `#` characters. -/
def stripHash (s : String) : String :=
  String.mk (((s.toList.dropWhile (· = '#')).reverse.dropWhile (· = '#')).reverse)

/-- Split a character list on a single-character separator, keeping empty
pieces (Python `str.split(c)` semantics). -/
def splitCharL (sep : Char) : List Char → List (List Char)
  | [] => [[]]
  | c :: rest =>
    if c = sep then [] :: splitCharL sep rest
    else
      match splitCharL sep rest with
      | [] => [[c]]
      | h :: t => (c :: h) :: t

/-- Split a character list on the two-character separator `->`
(Python `str.split('->')` semantics, left-to-right, non-overlapping). -/
def splitArrowL : List Char → List (List Char)
  | [] => [[]]
  | '-' :: '>' :: rest => [] :: splitArrowL rest
  | c :: rest =>
    match splitArrowL rest with
    | [] => [[c]]
    | h :: t => (c :: h) :: t

/-- Split a character list on the two-character separator `%s`
(used to model Python `%`-formatting with a single `%s` conversion). -/
def splitPercentSL : List Char → List (List Char)
  | [] => [[]]
  | '%' :: 's' :: rest => [] :: splitPercentSL rest
  | c :: rest =>
    match splitPercentSL rest with
    | [] => [[c]]
    | h :: t => (c :: h) :: t

/-- Python `s.split(',')`. -/
def pySplitComma (s : String) : List String :=
  (splitCharL ',' s.toList).map String.mk

/-- Python `s.split('->')`. -/
def pySplitArrow (s : String) : List String :=
  (splitArrowL s.toList).map String.mk

/-- Value of a decimal digit list. -/
def natOfDigits (l : List Char) : Nat :=
  l.foldl (fun n c => n * 10 + (c.toNat - 48)) 0

/-- Python `int(s)` on a string: optional surrounding whitespace, optional
sign, at least one digit; `none` models the `ValueError`. -/
def pyInt? (s : String) : Option Int :=
  match pyStripL s.toList with
  | [] => none
  | c :: rest =>
    let digits := if c = '-' || c = '+' then rest else c :: rest
    if digits ≠ [] ∧ digits.all Char.isDigit then
      some ((if c = '-' then -1 else 1) * (natOfDigits digits : Int))
    else none

/-- Python exceptions that the embedded code can raise. -/
inductive PyErr
  | valueError
  | typeError
  | attributeError
  | resourceNotFound
deriving DecidableEq

instance {ε α : Type} [DecidableEq ε] [DecidableEq α] : DecidableEq (Except ε α) :=
  fun a b =>
    match a, b with
    | .ok x, .ok y =>
      if h : x = y then .isTrue (by rw [h]) else .isFalse (fun hh => by cases hh; exact h rfl)
    | .ok _, .error _ => .isFalse (fun hh => by cases hh)
    | .error _, .ok _ => .isFalse (fun hh => by cases hh)
    | .error e, .error f =>
      if h : e = f then .isTrue (by rw [h]) else .isFalse (fun hh => by cases hh; exact h rfl)

/-- Python `fmt % arg` for a single string argument: `fmt` must contain
exactly one `%s` conversion, otherwise a `TypeError` is raised. -/
def pyFormat1 (fmt arg : String) : Except PyErr String :=
  match splitPercentSL fmt.toList with
  | [a, b] => .ok (String.mk a ++ arg ++ String.mk b)
  | _ => .error .typeError

/-- A value stored in the request's submitted form values (`req.args`):
either a string (form fields) or a boolean (the `preview` flag the
cross-reference operation forces to `True`). -/
inductive ArgVal
  | str (s : String)
  | bool (b : Bool)
deriving DecidableEq

/-- Python `str(v)` of a form value, as `%`-formatting would render it. -/
def argStr : ArgVal → String
  | .str s => s
  | .bool b => if b then "True" else "False"

/-- Python truthiness of an optional form value (`None` and `''` and
`False` are falsy). -/
def argTruthy : Option ArgVal → Bool
  | some (.str s) => s ≠ ""
  | some (.bool b) => b
  | none => false

/-- Python `v or ""` rendered as a string. -/
def pyOrEmpty (v : Option ArgVal) : String :=
  if argTruthy v then argStr (v.getD (.str "")) else ""

/-- The submitted form values: an insertion-ordered string-keyed dict. -/
abbrev Args := List (String × ArgVal)

/-- Python `k in args`. -/
def argsHas (args : Args) (k : String) : Bool :=
  args.any (fun p => p.1 = k)

/-- Python `args.get(k)`. -/
def argsGet (args : Args) (k : String) : Option ArgVal :=
  (args.find? (fun p => p.1 = k)).map (·.2)

/-- Python `args[k] = v` (replace in place, or append a new key). -/
def argsSet (args : Args) (k : String) (v : ArgVal) : Args :=
  if argsHas args k then args.map (fun p => if p.1 = k then (k, v) else p)
  else args ++ [(k, v)]

/-- The web request: submitted form values, the warnings surfaced to the
user by `add_warning` (stored as template/argument pairs, formatting being
the host's job), and the authenticated username. -/
structure Req where
  args : Args
  warnings : List (String × List String)
  authname : String
deriving DecidableEq

/-- Severity of a server-side log entry. -/
inductive LogLevel
  | error
  | warning
deriving DecidableEq

/-- A server-side log entry: severity, format template and arguments. -/
structure LogEntry where
  level : LogLevel
  template : String
  logArgs : List String
deriving DecidableEq

/-- The ticket record: integer id, field mapping (a field may be unset,
modelling Python `None`), and the existence flag. -/
structure Ticket where
  id : Nat
  fields : String → Option String
  known : Bool

/-- A milestone entity (only its completion flag matters here). -/
structure Milestone where
  is_completed : Bool

/-- A component entity (only its configured owner matters here). -/
structure CompInfo where
  owner : Option String

/-- The static data of one configured action, as parsed by the host's
workflow registry: display label, `name`, `newstate`, and the optional
per-action template strings the cross-reference operation reads. -/
structure ActionInfo where
  label : String
  name : String
  newstate : String
  xref_hint : Option String
  xref_local : Option String
  xref : Option String

/-- The host environment: configuration accessors, entity stores, the
history query, the workflow registry, the filesystem and process runner
used by the external-script operation, the notification outcome, and the
message texts of the host's `ResourceNotFound` exceptions. -/
structure Env where
  path : String
  config : String → String
  configList : String → List String
  components : String → Option CompInfo
  milestones : String → Option Milestone
  ticketKnown : Int → Bool
  lastFieldValue : Nat → String → Option String
  actions : String → ActionInfo
  fileOnDisk : String → Bool
  runProcess : List String → Int
  notifyFails : Int → Option String
  now : Nat
  msgTicketMissing : Int → String
  msgComponentMissing : Option String → String
  msgMilestoneMissing : String → String

/-- A change-set: insertion-ordered dict of field name to new value
(`none` models Python `None`, the explicit delete-owner value). -/
abbrev Changes := List (String × Option String)

/-- Python dict insertion: replace the value in place if the key exists,
append otherwise. -/
def dictInsert (d : Changes) (k : String) (v : Option String) : Changes :=
  if k ∈ d.map Prod.fst then d.map (fun p => if p.1 = k then (k, v) else p)
  else d ++ [(k, v)]

/-- `{x: '' for x in names}`: the clear-fields change-set. -/
def clearChanges (names : List String) : Changes :=
  names.foldl (fun d x => dictInsert d x (some "")) []

/-- The result of one operation's `get_ticket_changes`: the (possibly
mutated) request, the returned change-set, and the log entries written. -/
structure OpResult where
  req : Req
  changes : Changes
  logs : List LogEntry
deriving DecidableEq

/-! ### Message templates appearing in the source -/

def tmplBadNumber : String :=
  "The cross-referenced ticket number \"%s\" was not a number"

def tmplUnableXRef : String :=
  "Unable to cross-reference Ticket #%s (%s)."

def xrefLocalDefault : String :=
  "Ticket %s was marked as related to this ticket"

def xrefRemoteDefault : String :=
  "Ticket %s is related to this ticket"

def tmplBadTriage : String :=
  "Bad configuration for \x27triage\x27 operation in action \x27%s\x27"

def tmplNotifyFail : String :=
  "Failure sending notification on change to ticket #%s: %s"

def tmplNoScript : String :=
  "Error in ticket workflow config; could not find external command to run for %s in %s"

def tmplScriptExit : String :=
  "External script %r exited with return code %s."

def tmplOpWarn : String := "In %s, %s"

/-! ### The individual operations -/

/-- `TicketWorkflowOpOwnerComponent._new_owner`: look up the component
named by the ticket's `component` field; on `ResourceNotFound` log a
warning and return `None`. -/
def componentNewOwner (env : Env) (ticket : Ticket) : Option String × List LogEntry :=
  match ticket.fields "component" with
  | some name =>
    match env.components name with
    | some c => (c.owner, [])
    | none =>
      (none, [⟨.warning, tmplOpWarn,
        ["set_owner_to_component_owner", env.msgComponentMissing (some name)]⟩])
  | none =>
    (none, [⟨.warning, tmplOpWarn,
      ["set_owner_to_component_owner", env.msgComponentMissing none]⟩])

/-- The loop body of `TicketWorkflowOpTriage._new_status`: walk the
comma-split clauses in order; unpacking a clause that does not split on
`->` into exactly two pieces raises `ValueError`; the `for`-`else` branch
logs a configuration error and yields `new`. -/
def triageLoop (fv : String) (action : String) :
    List String → Except PyErr (String × List LogEntry)
  | [] => .ok ("new", [⟨.error, tmplBadTriage, [action]⟩])
  | t :: rest =>
    match (pySplitArrow t).map pyStrip with
    | [v, s] => if v = pyStrip fv then .ok (s, []) else triageLoop fv action rest
    | _ => .error .valueError

/-- `TicketWorkflowOpTriage._new_status`: read the configured field and
table, evaluate the field's current value against the clauses.  Reading a
missing field raises (`None.strip()` is an `AttributeError`). -/
def triageNewStatus (env : Env) (ticket : Ticket) (action : String) :
    Except PyErr (String × List LogEntry) :=
  let field := pyStrip (env.config (action ++ ".triage_field"))
  let transitions := pyStrip (env.config (action ++ ".triage_split"))
  match ticket.fields field with
  | none => .error .attributeError
  | some fv => triageLoop fv action ((pySplitComma transitions).map pyStrip)

/-- The form-field key the cross-reference operation uses. -/
def xrefKey (action : String) : String := "action_" ++ action ++ "_xref"

/-- `TicketWorkflowOpXRef.get_ticket_changes`: in non-preview mode,
validate the submitted reference id; on failure force preview mode and
surface a warning; on success splice the templated sentence into the
submitted comment.  Always returns an empty change-set. -/
def xrefGetTicketChanges (env : Env) (req : Req) (_ticket : Ticket) (action : String) :
    Except PyErr OpResult :=
  if argsHas req.args "preview" then .ok ⟨req, [], []⟩
  else
    match argsGet req.args (xrefKey action) with
    | some (.str raw) =>
      let ticket_num := stripHash raw
      match pyInt? ticket_num with
      | none =>
        .ok ⟨{ req with
                 args := argsSet req.args "preview" (.bool true),
                 warnings := req.warnings ++ [(tmplBadNumber, [ticket_num])] },
             [], []⟩
      | some n =>
        if env.ticketKnown n then
          let oldcomment := argsGet req.args "comment"
          let format_string := (env.actions action).xref_local.getD xrefLocalDefault
          if format_string = "" then .ok ⟨req, [], []⟩
          else
            match pyFormat1 format_string ("#" ++ ticket_num) with
            | .error e => .error e
            | .ok comment =>
              let newc := comment ++ (if argTruthy oldcomment then "[[BR]]" else "")
                            ++ pyOrEmpty oldcomment
              .ok ⟨{ req with args := argsSet req.args "comment" (.str newc) }, [], []⟩
        else
          .ok ⟨{ req with
                   args := argsSet req.args "preview" (.bool true),
                   warnings := req.warnings ++
                     [(tmplUnableXRef, [ticket_num, env.msgTicketMissing n])] },
               [], []⟩
    | some (.bool _) => .error .attributeError
    | none => .error .attributeError

/-- An observable side effect of an `apply_action_side_effects` step. -/
inductive Effect
  | printed (msg : String)
  | spawn (argv : List String)
  | save (ticketId : Int) (author : String) (comment : String) (time : Nat)
  | notifyEvt (kind : String) (ticketId : Int) (time : Nat) (author : String)
deriving DecidableEq

/-- Result of an `apply_action_side_effects` step: the ordered effect
trace and the log entries written. -/
structure SideResult where
  effects : List Effect
  logs : List LogEntry
deriving DecidableEq

/-- `TicketWorkflowOpXRef.apply_action_side_effects`: re-read the
reference id, build the reciprocal comment, load and save the referenced
ticket, then dispatch one `changed` notification, swallowing (and
logging) any exception the dispatch raises. -/
def xrefApplySideEffects (env : Env) (req : Req) (ticket : Ticket) (action : String) :
    Except PyErr SideResult :=
  match argsGet req.args (xrefKey action) with
  | some (.str raw) =>
    let ticketnum := stripHash raw
    let author := req.authname
    let format_string := (env.actions action).xref.getD xrefRemoteDefault
    match pyFormat1 format_string ("#" ++ toString ticket.id) with
    | .error e => .error e
    | .ok comment =>
      match pyInt? ticketnum with
      | none => .error .valueError
      | some n =>
        if env.ticketKnown n then
          let base := [Effect.save n author comment env.now,
                       Effect.notifyEvt "changed" n env.now author]
          match env.notifyFails n with
          | some msg => .ok ⟨base, [⟨.error, tmplNotifyFail, [ticketnum, msg]⟩]⟩
          | none => .ok ⟨base, []⟩
        else .error .resourceNotFound
  | some (.bool _) => .error .attributeError
  | none => .error .attributeError

/-- `os.path.join(self.env.path, 'hooks', action)`. -/
def hooksPath (env : Env) (action : String) : String :=
  env.path ++ "/hooks/" ++ action

/-- The suffix probe order of the external-script operation. -/
def scriptSuffixes : List String := ["", ".exe", ".cmd", ".bat"]

/-- The `for`-loop over suffixes in
`TicketWorkflowOpRunExternal.apply_action_side_effects`: the first suffix
whose file exists wins; the `for`-`else` branch yields `none`. -/
def resolveScript (check : String → Bool) (script : String) :
    List String → Option String
  | [] => none
  | ext :: rest =>
    if check (script ++ ext) then some (script ++ ext)
    else resolveScript check script rest

/-- `TicketWorkflowOpRunExternal.apply_action_side_effects`: print, probe
for the script, either log that it is missing or run it and log a
non-zero exit code. -/
def runExternalApplySideEffects (env : Env) (req : Req) (ticket : Ticket)
    (action : String) : SideResult :=
  let pr := Effect.printed ("running external script for " ++ action)
  let script := hooksPath env action
  match resolveScript env.fileOnDisk script scriptSuffixes with
  | none =>
    ⟨[pr], [⟨.error, tmplNoScript, [action, env.path ++ "/hooks"]⟩]⟩
  | some full =>
    let argv := [full, toString ticket.id, req.authname]
    let retval := env.runProcess argv
    ⟨[pr, .spawn argv],
     if retval = 0 then [] else [⟨.error, tmplScriptExit, [full, toString retval]⟩]⟩

/-- `TicketWorkflowOpBase._get_hint_to_change_state`. -/
def hintToChangeState (ticket : Ticket) (status : String) : String :=
  match ticket.fields "status" with
  | none => "The status will be \x27" ++ status ++ "\x27"
  | some _ => "Next status will be \x27" ++ status ++ "\x27"

/-- `TicketWorkflowOpSetState.render_ticket_action_control`:
(label, control, hint). -/
def setStateRender (env : Env) (_req : Req) (ticket : Ticket) (action : String) :
    String × String × String :=
  let a := env.actions action
  let hint := if ticket.fields "status" = some a.newstate then ""
              else hintToChangeState ticket a.newstate
  (a.name, "", hint)

/-- `TicketWorkflowOpSetState.get_ticket_changes`. -/
def setStateChanges (env : Env) (ticket : Ticket) (action : String) : Changes :=
  let newstate := (env.actions action).newstate
  if ticket.fields "status" = some newstate then []
  else [("status", some newstate)]

/-- `TicketWorkflowOpResetMilestone._fetch_milestone`: look up the named
milestone when the field is truthy, logging a warning (and treating the
milestone as absent) when it does not exist. -/
def fetchMilestone (env : Env) (ticket : Ticket) : Option Milestone × List LogEntry :=
  match ticket.fields "milestone" with
  | some name =>
    if name = "" then (none, [])
    else
      match env.milestones name with
      | some m => (some m, [])
      | none =>
        (none, [⟨.warning, tmplOpWarn,
          ["reset_milestone", env.msgMilestoneMissing name]⟩])
  | none => (none, [])

/-- `TicketWorkflowOpResetMilestone.render_ticket_action_control`:
(label, control, hint). -/
def resetMilestoneRender (env : Env) (_req : Req) (ticket : Ticket) (action : String) :
    String × String × String :=
  let label := (env.actions action).label
  let hint :=
    match (fetchMilestone env ticket).1 with
    | some m => if m.is_completed then "The milestone will be reset." else ""
    | none => ""
  (label, "", hint)

/-- `TicketWorkflowOpResetMilestone.get_ticket_changes` (change-set and
the warning log the milestone fetch may write). -/
def resetMilestoneChanges (env : Env) (ticket : Ticket) : Changes × List LogEntry :=
  let fetched := fetchMilestone env ticket
  match fetched.1 with
  | some m => (if m.is_completed then [("milestone", some "")] else [], fetched.2)
  | none => ([], fetched.2)

/-- The closed set of concrete operations of the plugin. -/
inductive OpKind
  | ownerReporter
  | ownerComponent
  | ownerField
  | fieldAuthor
  | fieldsClear
  | ownerPrevious
  | statusPrevious
  | runExternal
  | triage
  | xref
  | resetMilestone
  | setState
deriving DecidableEq

/-- The `get_ticket_changes` dispatch over all operations of the plugin.
Each branch is the direct embedding of the corresponding Python method. -/
def getTicketChanges (op : OpKind) (env : Env) (req : Req) (ticket : Ticket)
    (action : String) : Except PyErr OpResult :=
  match op with
  | .ownerReporter => .ok ⟨req, [("owner", ticket.fields "reporter")], []⟩
  | .ownerComponent =>
    let r := componentNewOwner env ticket
    .ok ⟨req, [("owner", r.1)], r.2⟩
  | .ownerField =>
    let field := pyStrip (env.config (action ++ ".set_owner_to_field"))
    .ok ⟨req, [("owner", ticket.fields field)], []⟩
  | .fieldAuthor =>
    let field := pyStrip (env.config (action ++ ".set_field_to_author"))
    .ok ⟨req, [(field, some req.authname)], []⟩
  | .fieldsClear =>
    .ok ⟨req, clearChanges (env.configList (action ++ ".clear_fields")), []⟩
  | .ownerPrevious =>
    let prev :=
      match env.lastFieldValue ticket.id "owner" with
      | some v => some v
      | none => ticket.fields "owner"
    .ok ⟨req, [("owner", prev)], []⟩
  | .statusPrevious =>
    let st := (env.lastFieldValue ticket.id "status").getD "new"
    .ok ⟨req, [("status", some st)], []⟩
  | .runExternal => .ok ⟨req, [], []⟩
  | .triage =>
    (triageNewStatus env ticket action).map
      (fun p => ⟨req, [("status", some p.1)], p.2⟩)
  | .xref => xrefGetTicketChanges env req ticket action
  | .resetMilestone =>
    let r := resetMilestoneChanges env ticket
    .ok ⟨req, r.1, r.2⟩
  | .setState => .ok ⟨req, setStateChanges env ticket action, []⟩

/-! ### Concrete fixtures used by counterexamples and witnesses -/

/-- A workflow action entry with no per-action xref templates configured
(so the source's default templates apply). -/
def actionInfoW : ActionInfo := ⟨"Resolve it", "resolve", "closed", none, none, none⟩

/-- A host environment in which only ticket #42 exists. -/
def envW : Env where
  path := "/env"
  config := fun _ => ""
  configList := fun _ => []
  components := fun _ => none
  milestones := fun _ => none
  ticketKnown := fun n => decide (n = 42)
  lastFieldValue := fun _ _ => none
  actions := fun _ => actionInfoW
  fileOnDisk := fun _ => false
  runProcess := fun _ => 0
  notifyFails := fun _ => none
  now := 0
  msgTicketMissing := fun _ => "ticket does not exist"
  msgComponentMissing := fun _ => "component does not exist"
  msgMilestoneMissing := fun _ => "milestone does not exist"

/-- A non-preview request submitting cross-reference id `42` and comment
`hello` for action `resolve`. -/
def reqW : Req :=
  ⟨[("action_resolve_xref", .str "42"), ("comment", .str "hello")], [], "alice"⟩

/-- `reqW` after the cross-reference operation has spliced its sentence
into the submitted comment. -/
def reqW1 : Req :=
  ⟨[("action_resolve_xref", .str "42"),
    ("comment", .str "Ticket #42 was marked as related to this ticket[[BR]]hello")],
   [], "alice"⟩

/-- The primary ticket of the fixtures. -/
def ticketW : Ticket := ⟨7, fun _ => none, true⟩

/-! ### Helper lemmas -/

theorem pyFormat1_xrefLocalDefault (s : String) :
    pyFormat1 xrefLocalDefault s =
      .ok ("Ticket " ++ s ++ " was marked as related to this ticket") := rfl

theorem xrefLocalDefault_ne_empty : ¬ xrefLocalDefault = "" := by decide

/-! ### C1 -/

/-- C1, counterexample: in non-preview mode with existing ticket #42 and
submitted comment `hello`, the code stores the *new* sentence first, then
the line break, then the existing comment — not, as the claim states, the
existing comment first, then the line break, then the new sentence. -/
theorem xref_comment_order_counterexample :
    getTicketChanges .xref envW reqW ticketW "resolve" = .ok ⟨reqW1, [], []⟩ ∧
    argsGet reqW1.args "comment" =
      some (.str "Ticket #42 was marked as related to this ticket[[BR]]hello") ∧
    argsGet reqW1.args "comment" ≠
      some (.str "hello[[BR]]Ticket #42 was marked as related to this ticket") :=
  ⟨by decide, by decide, by decide⟩

/-- C1, amended: for the cross-reference operation's `get_ticket_changes`,
when the request is not in preview mode and the submitted reference id
names an existing ticket, the templated sentence (default template
`Ticket %s was marked as related to this ticket`, substituting the
referenced ticket's display id) is spliced into the submitted comment
text in this order: the new sentence first, then a line break (only when
an existing comment is present), then the existing comment; the submitted
form values are mutated, not the ticket record, and the returned
change-set is empty. -/
theorem xref_comment_prepend (env : Env) (req : Req) (ticket : Ticket) (action : String)
    (raw : String) (n : Int) (oldc : String)
    (hprev : argsHas req.args "preview" = false)
    (harg : argsGet req.args (xrefKey action) = some (.str raw))
    (hnum : pyInt? (stripHash raw) = some n)
    (hknown : env.ticketKnown n = true)
    (htmpl : (env.actions action).xref_local = none)
    (hcom : argsGet req.args "comment" = some (.str oldc)) :
    getTicketChanges .xref env req ticket action =
      .ok ⟨{ req with args := argsSet req.args "comment" (.str
              (("Ticket " ++ ("#" ++ stripHash raw) ++ " was marked as related to this ticket")
                ++ (if oldc = "" then "" else "[[BR]]")
                ++ (if oldc = "" then "" else oldc))) },
           [], []⟩ := by
  by_cases hc : oldc = "" <;>
    simp [getTicketChanges, xrefGetTicketChanges, hprev, harg, hnum, hknown, htmpl,
          hcom, argTruthy, pyOrEmpty, argStr, hc, pyFormat1_xrefLocalDefault,
          xrefLocalDefault_ne_empty,
          String.append_assoc, String.append_empty]

/-- C1, witness: the amended theorem applied to the concrete fixtures. -/
theorem xref_comment_prepend_witness :
    argsHas reqW.args "preview" = false ∧
    argsGet reqW.args (xrefKey "resolve") = some (.str "42") ∧
    pyInt? (stripHash "42") = some 42 ∧
    envW.ticketKnown 42 = true ∧
    (envW.actions "resolve").xref_local = none ∧
    argsGet reqW.args "comment" = some (.str "hello") ∧
    getTicketChanges .xref envW reqW ticketW "resolve" =
      .ok ⟨{ reqW with args := argsSet reqW.args "comment" (.str
              (("Ticket " ++ ("#" ++ stripHash "42") ++ " was marked as related to this ticket")
                ++ (if ("hello" : String) = "" then "" else "[[BR]]")
                ++ (if ("hello" : String) = "" then "" else "hello"))) },
           [], []⟩ :=
  ⟨by decide, by decide, by decide, by decide, rfl, by decide,
   xref_comment_prepend envW reqW ticketW "resolve" "42" 42 "hello"
     (by decide) (by decide) (by decide) (by decide) rfl (by decide)⟩

/-! ### C2 -/

/-- C2, counterexample: the cross-reference operation's
`get_ticket_changes` mutates the submitted form values (it rewrites the
submitted comment), and calling it twice with no state reset in between
appends the sentence a second time, so the two calls do not yield
identical results. -/
theorem compute_changes_pure_counterexample :
    getTicketChanges .xref envW reqW ticketW "resolve" = .ok ⟨reqW1, [], []⟩ ∧
    reqW1 ≠ reqW ∧
    getTicketChanges .xref envW reqW1 ticketW "resolve" ≠ .ok ⟨reqW1, [], []⟩ :=
  ⟨by decide, by decide, by decide⟩

/-- C2, amended: for every operation except the cross-reference one,
`get_ticket_changes` leaves the request (submitted form values, warnings)
unchanged and is idempotent: a second call in the resulting state returns
the same result.  (The ticket record is untouched by construction for all
operations; the cross-reference operation mutates the submitted form
values, and the previous-owner/previous-status operations read — but do
not write — history storage.) -/
theorem compute_changes_pure_except_xref (op : OpKind) (env : Env) (req : Req)
    (ticket : Ticket) (action : String) (r : OpResult)
    (hop : op ≠ OpKind.xref)
    (h : getTicketChanges op env req ticket action = .ok r) :
    r.req = req ∧ getTicketChanges op env r.req ticket action = .ok r := by
  cases op
  case xref => exact absurd rfl hop
  case triage =>
    simp only [getTicketChanges] at h ⊢
    cases htn : triageNewStatus env ticket action with
    | error e => rw [htn] at h; simp [Except.map] at h
    | ok p =>
      rw [htn] at h
      obtain rfl : ({ req := req, changes := [("status", some p.1)], logs := p.2 } : OpResult) = r := by
        simpa [Except.map] using h
      simp [htn, Except.map]
  all_goals
    simp only [getTicketChanges] at h ⊢
  all_goals
    obtain rfl := (Except.ok.inj h)
  all_goals simp_all

/-- C2, witness: the amended theorem applied to the owner-to-reporter
operation on the concrete fixtures. -/
theorem compute_changes_pure_except_xref_witness :
    OpKind.ownerReporter ≠ OpKind.xref ∧
    getTicketChanges .ownerReporter envW reqW ticketW "resolve" =
      .ok ⟨reqW, [("owner", none)], []⟩ ∧
    ((⟨reqW, [("owner", none)], []⟩ : OpResult).req = reqW ∧
     getTicketChanges .ownerReporter envW
       ((⟨reqW, [("owner", none)], []⟩ : OpResult)).req ticketW "resolve" =
         .ok ⟨reqW, [("owner", none)], []⟩) :=
  ⟨by decide, by decide,
   compute_changes_pure_except_xref .ownerReporter envW reqW ticketW "resolve"
     ⟨reqW, [("owner", none)], []⟩ (by decide) (by decide)⟩

/-! ### C3 / C4: triage -/

/-- A triage clause is well formed when it splits on `->` into exactly two
pieces (the invariant stated for the triage table). -/
def wellFormedClause (t : String) : Prop :=
  ((pySplitArrow t).map pyStrip).length = 2

instance (t : String) : Decidable (wellFormedClause t) := by
  unfold wellFormedClause; infer_instance

/-- Specification-side first-match dispatch, from the spec's words: the
first clause whose trimmed left side equals the trimmed field value yields
its trimmed right side. -/
def firstTriageMatch (fv : String) : List String → Option String
  | [] => none
  | t :: rest =>
    match (pySplitArrow t).map pyStrip with
    | [v, s] => if v = pyStrip fv then some s else firstTriageMatch fv rest
    | _ => firstTriageMatch fv rest

/-- On a table whose clauses are all well formed, the source's loop agrees
with the specification-side first-match dispatch, defaulting to `new`
with a configuration-error log when nothing matches. -/
theorem triageLoop_spec (fv action : String) (clauses : List String)
    (hwf : ∀ t ∈ clauses, wellFormedClause t) :
    triageLoop fv action clauses =
      (match firstTriageMatch fv clauses with
       | some s => .ok (s, [])
       | none => .ok ("new", [⟨.error, tmplBadTriage, [action]⟩])) := by
  induction clauses with
  | nil => rfl
  | cons t rest ih =>
    have ht : wellFormedClause t := hwf t (List.mem_cons_self t rest)
    have hrest : ∀ x ∈ rest, wellFormedClause x :=
      fun x hx => hwf x (List.mem_cons_of_mem t hx)
    rcases hl : (pySplitArrow t).map pyStrip with _ | ⟨v, _ | ⟨s, _ | ⟨c, tl⟩⟩⟩
    · simp [wellFormedClause, hl] at ht
    · simp [wellFormedClause, hl] at ht
    · simp only [triageLoop, firstTriageMatch, hl]
      by_cases hv : v = pyStrip fv
      · simp [hv]
      · simp [hv, ih hrest]
    · simp [wellFormedClause, hl] at ht

/-- An environment whose `qualify` action has a well-formed two-clause
triage table on the `type` field. -/
def envT : Env :=
  { envW with config := fun k =>
      if k = "qualify.triage_field" then "type"
      else if k = "qualify.triage_split" then "defect -> new_defect, task -> new_task"
      else "" }

/-- An environment whose `qualify` action has a malformed triage table
(the single clause `defect` contains no `->`). -/
def envM : Env :=
  { envW with config := fun k =>
      if k = "qualify.triage_field" then "type"
      else if k = "qualify.triage_split" then "defect"
      else "" }

/-- An empty request. -/
def reqE : Req := ⟨[], [], "alice"⟩

/-- A ticket whose `type` field is `defect`. -/
def ticketT : Ticket := ⟨3, fun f => if f = "type" then some "defect" else none, true⟩

/-- A ticket whose `type` field is `task`. -/
def ticketM : Ticket := ⟨3, fun f => if f = "type" then some "task" else none, true⟩

/-- A ticket whose `type` field is `bug` (matched by no clause of
`envT`'s table). -/
def ticketB : Ticket := ⟨3, fun f => if f = "type" then some "bug" else none, true⟩

/-- C3, counterexample: with the malformed triage table `defect` (a clause
with no `->`), `get_ticket_changes` raises a `ValueError` while unpacking
the clause; it does not log a configuration error and proceed with the
safe default status `new` as the claim states. -/
theorem triage_malformed_counterexample :
    getTicketChanges .triage envM reqE ticketM "qualify" = .error .valueError ∧
    getTicketChanges .triage envM reqE ticketM "qualify" ≠
      .ok ⟨reqE, [("status", some "new")], [⟨.error, tmplBadTriage, ["qualify"]⟩]⟩ :=
  ⟨by decide, by decide⟩

/-- C3, amended: when every clause of the triage table is well formed
(splits on `->` into exactly two pieces) and none of them matches the
configured field's trimmed value, the triage operation's
`get_ticket_changes` logs a configuration error and returns
`{status: new}` rather than raising; a structurally malformed clause
reached before any match instead raises a `ValueError` (see the
counterexample). -/
theorem triage_nomatch_default_new (env : Env) (req : Req) (ticket : Ticket)
    (action : String) (fv : String)
    (hfv : ticket.fields (pyStrip (env.config (action ++ ".triage_field"))) = some fv)
    (hwf : ∀ t ∈ (pySplitComma (pyStrip (env.config (action ++ ".triage_split")))).map pyStrip,
             wellFormedClause t)
    (hnm : firstTriageMatch fv
             ((pySplitComma (pyStrip (env.config (action ++ ".triage_split")))).map pyStrip) = none) :
    getTicketChanges .triage env req ticket action =
      .ok ⟨req, [("status", some "new")], [⟨.error, tmplBadTriage, [action]⟩]⟩ := by
  simp only [getTicketChanges, triageNewStatus, hfv]
  rw [triageLoop_spec fv action _ hwf, hnm]
  rfl

/-- C3, witness: the amended theorem applied to the well-formed table of
`envT` and a ticket whose `type` value `bug` matches no clause. -/
theorem triage_nomatch_default_new_witness :
    ticketB.fields (pyStrip (envT.config ("qualify" ++ ".triage_field"))) = some "bug" ∧
    (∀ t ∈ (pySplitComma (pyStrip (envT.config ("qualify" ++ ".triage_split")))).map pyStrip,
       wellFormedClause t) ∧
    firstTriageMatch "bug"
      ((pySplitComma (pyStrip (envT.config ("qualify" ++ ".triage_split")))).map pyStrip) = none ∧
    getTicketChanges .triage envT reqE ticketB "qualify" =
      .ok ⟨reqE, [("status", some "new")], [⟨.error, tmplBadTriage, ["qualify"]⟩]⟩ :=
  ⟨by decide, by decide, by decide,
   triage_nomatch_default_new envT reqE ticketB "qualify" "bug"
     (by decide) (by decide) (by decide)⟩

/-- C4: the triage operation's `get_ticket_changes` evaluates the
configured field's current value against each clause of
`<action>.triage_split` in declared order; the first exact match — after
trimming whitespace on both sides of `->` and around the compared value —
determines the resulting status; if no clause matches, a configuration
error is logged and the resulting status is `new`. -/
theorem triage_first_match (env : Env) (req : Req) (ticket : Ticket)
    (action : String) (fv : String)
    (hfv : ticket.fields (pyStrip (env.config (action ++ ".triage_field"))) = some fv)
    (hwf : ∀ t ∈ (pySplitComma (pyStrip (env.config (action ++ ".triage_split")))).map pyStrip,
             wellFormedClause t) :
    getTicketChanges .triage env req ticket action =
      (match firstTriageMatch fv
               ((pySplitComma (pyStrip (env.config (action ++ ".triage_split")))).map pyStrip) with
       | some s => .ok ⟨req, [("status", some s)], []⟩
       | none => .ok ⟨req, [("status", some "new")], [⟨.error, tmplBadTriage, [action]⟩]⟩) := by
  simp only [getTicketChanges, triageNewStatus, hfv]
  rw [triageLoop_spec fv action _ hwf]
  cases firstTriageMatch fv
      ((pySplitComma (pyStrip (env.config (action ++ ".triage_split")))).map pyStrip) <;> rfl

/-- C4, witness: the theorem applied to the table
`defect -> new_defect, task -> new_task` and field value `defect`,
yielding status `new_defect`. -/
theorem triage_first_match_witness :
    ticketT.fields (pyStrip (envT.config ("qualify" ++ ".triage_field"))) = some "defect" ∧
    (∀ t ∈ (pySplitComma (pyStrip (envT.config ("qualify" ++ ".triage_split")))).map pyStrip,
       wellFormedClause t) ∧
    getTicketChanges .triage envT reqE ticketT "qualify" =
      .ok ⟨reqE, [("status", some "new_defect")], []⟩ :=
  ⟨by decide, by decide,
   triage_first_match envT reqE ticketT "qualify" "defect" (by decide) (by decide)⟩

/-! ### C5: cross-reference validation -/

/-- A request already in preview mode (the key is present, whatever its
value), submitting cross-reference id `42`. -/
def reqP : Req :=
  ⟨[("preview", .str "1"), ("action_resolve_xref", .str "42")], [], "alice"⟩

/-- A non-preview request submitting the non-numeric reference id `abc`. -/
def reqBad : Req := ⟨[("action_resolve_xref", .str "abc")], [], "alice"⟩

/-- A non-preview request submitting reference id `99`, which names no
existing ticket of `envW`. -/
def reqMiss : Req := ⟨[("action_resolve_xref", .str "99")], [], "alice"⟩

/-- C5: cross-reference `get_ticket_changes` validation.  If the request
is already in preview mode, validation and mutation are skipped and the
request is returned untouched with an empty change-set.  Otherwise, if the
submitted id does not parse as a ticket identifier, the request is forced
into preview mode, a warning naming the bad input is surfaced, and the
change-set is empty; if it parses but the ticket does not exist, the
request is forced into preview mode, a warning naming the missing ticket
is surfaced, and the change-set is empty. -/
theorem xref_validation_preview (env : Env) (req : Req) (ticket : Ticket)
    (action : String) (raw : String) :
    (argsHas req.args "preview" = true →
      getTicketChanges .xref env req ticket action = .ok ⟨req, [], []⟩) ∧
    (argsHas req.args "preview" = false →
     argsGet req.args (xrefKey action) = some (.str raw) →
     pyInt? (stripHash raw) = none →
      getTicketChanges .xref env req ticket action =
        .ok ⟨{ req with args := argsSet req.args "preview" (.bool true),
                        warnings := req.warnings ++ [(tmplBadNumber, [stripHash raw])] },
             [], []⟩) ∧
    (∀ n : Int,
     argsHas req.args "preview" = false →
     argsGet req.args (xrefKey action) = some (.str raw) →
     pyInt? (stripHash raw) = some n →
     env.ticketKnown n = false →
      getTicketChanges .xref env req ticket action =
        .ok ⟨{ req with args := argsSet req.args "preview" (.bool true),
                        warnings := req.warnings ++
                          [(tmplUnableXRef, [stripHash raw, env.msgTicketMissing n])] },
             [], []⟩) := by
  refine ⟨fun h1 => ?_, fun h1 h2 h3 => ?_, fun n h1 h2 h3 h4 => ?_⟩ <;>
    simp [getTicketChanges, xrefGetTicketChanges, h1, *]

/-- C5, witness: the three validation branches at concrete requests:
preview skip, non-numeric id `abc`, and missing ticket `99`. -/
theorem xref_validation_preview_witness :
    (argsHas reqP.args "preview" = true ∧
     getTicketChanges .xref envW reqP ticketW "resolve" = .ok ⟨reqP, [], []⟩) ∧
    (argsHas reqBad.args "preview" = false ∧
     argsGet reqBad.args (xrefKey "resolve") = some (.str "abc") ∧
     pyInt? (stripHash "abc") = none ∧
     getTicketChanges .xref envW reqBad ticketW "resolve" =
       .ok ⟨{ reqBad with args := argsSet reqBad.args "preview" (.bool true),
                          warnings := reqBad.warnings ++ [(tmplBadNumber, [stripHash "abc"])] },
            [], []⟩) ∧
    (argsHas reqMiss.args "preview" = false ∧
     argsGet reqMiss.args (xrefKey "resolve") = some (.str "99") ∧
     pyInt? (stripHash "99") = some 99 ∧
     envW.ticketKnown 99 = false ∧
     getTicketChanges .xref envW reqMiss ticketW "resolve" =
       .ok ⟨{ reqMiss with args := argsSet reqMiss.args "preview" (.bool true),
                           warnings := reqMiss.warnings ++
                             [(tmplUnableXRef, [stripHash "99", envW.msgTicketMissing 99])] },
            [], []⟩) :=
  ⟨⟨by decide, (xref_validation_preview envW reqP ticketW "resolve" "42").1 (by decide)⟩,
   ⟨by decide, by decide, by decide,
    (xref_validation_preview envW reqBad ticketW "resolve" "abc").2.1
      (by decide) (by decide) (by decide)⟩,
   ⟨by decide, by decide, by decide, by decide,
    (xref_validation_preview envW reqMiss ticketW "resolve" "99").2.2 99
      (by decide) (by decide) (by decide) (by decide)⟩⟩

/-! ### C6: cross-reference side effects -/

theorem pyFormat1_xrefRemoteDefault (s : String) :
    pyFormat1 xrefRemoteDefault s =
      .ok ("Ticket " ++ s ++ " is related to this ticket") := rfl

/-- Recognizer for notification-dispatch effects. -/
def isNotifyEvt : Effect → Bool
  | .notifyEvt _ _ _ _ => true
  | _ => false

/-- C6: cross-reference `apply_action_side_effects`, given a valid
referenced ticket id in form state and the default template: it saves a
reciprocal comment (`Ticket %s is related to this ticket` substituting
the primary ticket's display id) on the referenced ticket with the
current timestamp and acting username, dispatches exactly one `changed`
notification for it, and — whether or not the notification dispatch
raises — returns normally, logging the referenced ticket id and the
error when it does raise (the exception is swallowed, never
propagated). -/
theorem xref_side_effects_notify (env : Env) (req : Req) (ticket : Ticket)
    (action : String) (raw : String) (n : Int)
    (harg : argsGet req.args (xrefKey action) = some (.str raw))
    (htmpl : (env.actions action).xref = none)
    (hnum : pyInt? (stripHash raw) = some n)
    (hknown : env.ticketKnown n = true) :
    xrefApplySideEffects env req ticket action =
      .ok ⟨[.save n req.authname
              ("Ticket " ++ ("#" ++ toString ticket.id) ++ " is related to this ticket")
              env.now,
            .notifyEvt "changed" n env.now req.authname],
           (match env.notifyFails n with
            | some msg => [⟨.error, tmplNotifyFail, [stripHash raw, msg]⟩]
            | none => [])⟩ ∧
    (∀ sr, xrefApplySideEffects env req ticket action = .ok sr →
       (sr.effects.filter isNotifyEvt).length = 1) := by
  have hmain : xrefApplySideEffects env req ticket action =
      .ok ⟨[.save n req.authname
              ("Ticket " ++ ("#" ++ toString ticket.id) ++ " is related to this ticket")
              env.now,
            .notifyEvt "changed" n env.now req.authname],
           (match env.notifyFails n with
            | some msg => [⟨.error, tmplNotifyFail, [stripHash raw, msg]⟩]
            | none => [])⟩ := by
    cases hnf : env.notifyFails n <;>
      simp [xrefApplySideEffects, harg, htmpl, hnum, hknown, hnf,
            pyFormat1_xrefRemoteDefault, String.append_assoc]
  refine ⟨hmain, fun sr hsr => ?_⟩
  rw [hmain] at hsr
  cases env.notifyFails n <;> cases Except.ok.inj hsr <;> rfl

/-- An environment like `envW` whose notification dispatch raises. -/
def envF : Env := { envW with notifyFails := fun _ => some "smtp down" }

/-- C6, witness: the theorem applied at the concrete fixtures, once with
a succeeding notification dispatch and once with a raising one (the
latter still returns normally, with the failure logged). -/
theorem xref_side_effects_notify_witness :
    (argsGet reqW.args (xrefKey "resolve") = some (.str "42") ∧
     pyInt? (stripHash "42") = some 42 ∧
     envW.ticketKnown 42 = true ∧
     xrefApplySideEffects envW reqW ticketW "resolve" =
       .ok ⟨[.save 42 "alice" "Ticket #7 is related to this ticket" 0,
             .notifyEvt "changed" 42 0 "alice"], []⟩) ∧
    (xrefApplySideEffects envF reqW ticketW "resolve" =
       .ok ⟨[.save 42 "alice" "Ticket #7 is related to this ticket" 0,
             .notifyEvt "changed" 42 0 "alice"],
            [⟨.error, tmplNotifyFail, ["42", "smtp down"]⟩]⟩) :=
  ⟨⟨by decide, by decide, by decide, by
     have h := (xref_side_effects_notify envW reqW ticketW "resolve" "42" 42
       (by decide) rfl (by decide) (by decide)).1
     simpa using h⟩,
   by
     have h := (xref_side_effects_notify envF reqW ticketW "resolve" "42" 42
       (by decide) rfl (by decide) (by decide)).1
     simpa using h⟩

/-! ### C7: external script -/

/-- If no probed file exists, the probe loop yields `none`. -/
theorem resolveScript_none (check : String → Bool) (script : String) (l : List String)
    (h : ∀ e ∈ l, check (script ++ e) = false) :
    resolveScript check script l = none := by
  induction l with
  | nil => rfl
  | cons e rest ih =>
    simp [resolveScript, h e (List.mem_cons_self e rest),
          ih (fun x hx => h x (List.mem_cons_of_mem e hx))]

/-- The probe loop returns the first suffix, in list order, whose file
exists. -/
theorem resolveScript_find (check : String → Bool) (script : String) (l : List String) :
    resolveScript check script l =
      (l.find? (fun e => check (script ++ e))).map (fun e => script ++ e) := by
  induction l with
  | nil => rfl
  | cons e rest ih =>
    by_cases h : check (script ++ e) = true <;> simp [resolveScript, List.find?, h, ih]

/-- C7: the external-process `apply_action_side_effects` resolves the
executable as `<env-root>/hooks/<action>`, probing the suffixes
`""`, `.exe`, `.cmd`, `.bat` in that order and using the first whose file
exists; if none exists it logs an error naming the action and the
expected hooks directory and returns without spawning any process; if the
script runs and exits non-zero, the exit code is logged as an error and
nothing is surfaced to the user; and the operation contributes no ticket
changes, so the primary change-set is unaffected. -/
theorem run_external_side_effects (env : Env) (req : Req) (ticket : Ticket)
    (action : String) :
    ((∀ e ∈ scriptSuffixes, env.fileOnDisk (hooksPath env action ++ e) = false) →
       runExternalApplySideEffects env req ticket action =
         ⟨[.printed ("running external script for " ++ action)],
          [⟨.error, tmplNoScript, [action, env.path ++ "/hooks"]⟩]⟩) ∧
    (resolveScript env.fileOnDisk (hooksPath env action) scriptSuffixes =
       (scriptSuffixes.find? (fun e => env.fileOnDisk (hooksPath env action ++ e))).map
         (fun e => hooksPath env action ++ e)) ∧
    (∀ full, resolveScript env.fileOnDisk (hooksPath env action) scriptSuffixes = some full →
       env.runProcess [full, toString ticket.id, req.authname] ≠ 0 →
       runExternalApplySideEffects env req ticket action =
         ⟨[.printed ("running external script for " ++ action),
           .spawn [full, toString ticket.id, req.authname]],
          [⟨.error, tmplScriptExit,
            [full, toString (env.runProcess [full, toString ticket.id, req.authname])]⟩]⟩) ∧
    getTicketChanges .runExternal env req ticket action = .ok ⟨req, [], []⟩ := by
  refine ⟨fun h => ?_, resolveScript_find env.fileOnDisk (hooksPath env action) scriptSuffixes,
          fun full h1 h2 => ?_, rfl⟩
  · simp [runExternalApplySideEffects, resolveScript_none env.fileOnDisk (hooksPath env action)
      scriptSuffixes h]
  · simp [runExternalApplySideEffects, h1, h2]

/-- An environment in which only `/env/hooks/deploy.cmd` exists and every
spawned process exits with code 3. -/
def envH : Env :=
  { envW with fileOnDisk := fun p => decide (p = "/env/hooks/deploy.cmd"),
              runProcess := fun _ => 3 }

/-- C7, witness: with no hook files (`envW`), nothing is spawned and the
missing-script error is logged; with `/env/hooks/deploy.cmd` present and
exit code 3 (`envH`), the probe skips `""` and `.exe`, spawns the `.cmd`
script with the ticket id and username, and logs the exit code. -/
theorem run_external_side_effects_witness :
    ((∀ e ∈ scriptSuffixes, envW.fileOnDisk (hooksPath envW "deploy" ++ e) = false) ∧
     runExternalApplySideEffects envW reqW ticketW "deploy" =
       ⟨[.printed ("running external script for " ++ "deploy")],
        [⟨.error, tmplNoScript, ["deploy", envW.path ++ "/hooks"]⟩]⟩) ∧
    (resolveScript envH.fileOnDisk (hooksPath envH "deploy") scriptSuffixes =
       some "/env/hooks/deploy.cmd" ∧
     envH.runProcess ["/env/hooks/deploy.cmd", toString ticketW.id, reqW.authname] ≠ 0 ∧
     runExternalApplySideEffects envH reqW ticketW "deploy" =
       ⟨[.printed ("running external script for " ++ "deploy"),
         .spawn ["/env/hooks/deploy.cmd", toString ticketW.id, reqW.authname]],
        [⟨.error, tmplScriptExit,
          ["/env/hooks/deploy.cmd",
           toString (envH.runProcess ["/env/hooks/deploy.cmd", toString ticketW.id,
                                      reqW.authname])]⟩]⟩) :=
  ⟨⟨by decide, (run_external_side_effects envW reqW ticketW "deploy").1 (by decide)⟩,
   ⟨by decide, by decide,
    (run_external_side_effects envH reqW ticketW "deploy").2.2.1
      "/env/hooks/deploy.cmd" (by decide) (by decide)⟩⟩

/-! ### C8: component owner -/

/-- A ticket whose `component` field names `web`. -/
def ticketC : Ticket := ⟨5, fun f => if f = "component" then some "web" else none, true⟩

/-- C8: for the component-owner strategy, if the component entity named
by the ticket's `component` field does not exist (including an unset
field, which the host's lookup also reports as not found),
`get_ticket_changes` logs a warning and returns `{owner: None}` — the
explicit delete-owner value — and never raises. -/
theorem component_owner_missing (env : Env) (req : Req) (ticket : Ticket) (action : String)
    (h : ∀ name, ticket.fields "component" = some name → env.components name = none) :
    getTicketChanges .ownerComponent env req ticket action =
      .ok ⟨req, [("owner", none)],
           [⟨.warning, tmplOpWarn,
             ["set_owner_to_component_owner",
              env.msgComponentMissing (ticket.fields "component")]⟩]⟩ := by
  cases hc : ticket.fields "component" with
  | none => simp [getTicketChanges, componentNewOwner, hc]
  | some name => simp [getTicketChanges, componentNewOwner, hc, h name hc]

/-- C8, witness: the theorem applied to `envW` (which has no components)
and a ticket naming component `web`. -/
theorem component_owner_missing_witness :
    (∀ name, ticketC.fields "component" = some name → envW.components name = none) ∧
    getTicketChanges .ownerComponent envW reqE ticketC "resolve" =
      .ok ⟨reqE, [("owner", none)],
           [⟨.warning, tmplOpWarn,
             ["set_owner_to_component_owner",
              envW.msgComponentMissing (ticketC.fields "component")]⟩]⟩ :=
  ⟨fun _ _ => rfl,
   component_owner_missing envW reqE ticketC "resolve" (fun _ _ => rfl)⟩

/-! ### C9: clear fields -/

theorem dictInsert_keys (d : Changes) (k : String) (v : Option String) :
    (dictInsert d k v).map Prod.fst =
      if k ∈ d.map Prod.fst then d.map Prod.fst else d.map Prod.fst ++ [k] := by
  unfold dictInsert
  by_cases h : k ∈ d.map Prod.fst
  · simp only [h, if_true]
    rw [List.map_map]
    apply List.map_congr_left
    intro p hp
    by_cases hpk : p.1 = k <;> simp [hpk]
  · simp [h]

theorem dictInsert_val (d : Changes) (k : String) (v : Option String)
    (p : String × Option String) (hp : p ∈ dictInsert d k v) :
    p.2 = v ∨ p ∈ d := by
  unfold dictInsert at hp
  by_cases h : k ∈ d.map Prod.fst
  · rw [if_pos h] at hp
    obtain ⟨q, hq, hqeq⟩ := List.mem_map.mp hp
    by_cases hqk : q.1 = k
    · left; rw [← hqeq]; simp [hqk]
    · right; rw [← hqeq]; simpa [hqk] using hq
  · rw [if_neg h] at hp
    rcases List.mem_append.mp hp with h1 | h1
    · right; exact h1
    · left; simp at h1; rw [h1]

theorem clearFold_keys_mem (names : List String) (d : Changes) (k : String) :
    k ∈ ((names.foldl (fun d x => dictInsert d x (some "")) d).map Prod.fst) ↔
      k ∈ d.map Prod.fst ∨ k ∈ names := by
  induction names generalizing d with
  | nil => simp
  | cons x rest ih =>
    simp only [List.foldl_cons, ih, dictInsert_keys]
    by_cases h : x ∈ d.map Prod.fst
    · simp only [h, if_true]
      constructor
      · rintro (h1 | h1)
        · exact Or.inl h1
        · exact Or.inr (List.mem_cons_of_mem x h1)
      · rintro (h1 | h1)
        · exact Or.inl h1
        · rcases List.mem_cons.mp h1 with rfl | h2
          · exact Or.inl h
          · exact Or.inr h2
    · simp only [h, if_false, List.mem_append, List.mem_singleton, List.mem_cons]
      tauto

theorem clearFold_keys_nodup (names : List String) (d : Changes)
    (hd : (d.map Prod.fst).Nodup) :
    ((names.foldl (fun d x => dictInsert d x (some "")) d).map Prod.fst).Nodup := by
  induction names generalizing d with
  | nil => exact hd
  | cons x rest ih =>
    simp only [List.foldl_cons]
    apply ih
    rw [dictInsert_keys]
    by_cases h : x ∈ d.map Prod.fst
    · simpa [h] using hd
    · simp [h, List.nodup_append, hd]

theorem clearFold_vals (names : List String) (d : Changes)
    (hd : ∀ p ∈ d, p.2 = some "")
    (p : String × Option String)
    (hp : p ∈ names.foldl (fun d x => dictInsert d x (some "")) d) :
    p.2 = some "" := by
  induction names generalizing d with
  | nil => exact hd p hp
  | cons x rest ih =>
    simp only [List.foldl_cons] at hp
    refine ih (dictInsert d x (some "")) ?_ hp
    intro q hq
    rcases dictInsert_val d x (some "") q hq with h1 | h1
    · exact h1
    · exact hd q h1

/-- The dict built by `{x: '' for x in names}` has pairwise-distinct keys,
exactly the members of `names` as keys, only empty-string values, and one
entry per distinct configured name. -/
theorem clearChanges_spec (names : List String) :
    ((clearChanges names).map Prod.fst).Nodup ∧
    (∀ k, k ∈ (clearChanges names).map Prod.fst ↔ k ∈ names) ∧
    (∀ p ∈ clearChanges names, p.2 = some "") ∧
    (clearChanges names).length = names.dedup.length := by
  have hnd : ((clearChanges names).map Prod.fst).Nodup :=
    clearFold_keys_nodup names [] (by simp)
  have hmem : ∀ k, k ∈ (clearChanges names).map Prod.fst ↔ k ∈ names := by
    intro k
    rw [clearChanges, clearFold_keys_mem]
    simp
  refine ⟨hnd, hmem, fun p hp => clearFold_vals names [] (by simp) p hp, ?_⟩
  have h1 : (clearChanges names).length = ((clearChanges names).map Prod.fst).length :=
    (List.length_map _ _).symm
  have h2 : ((clearChanges names).map Prod.fst).toFinset = names.toFinset := by
    ext a
    simp [List.mem_toFinset, hmem]
  rw [h1, ← List.dedup_eq_self.mpr hnd, ← List.card_toFinset, h2, List.card_toFinset]

/-- An environment configuring the duplicated field list
`keywords, keywords` for action `wipe`. -/
def envD : Env :=
  { envW with configList := fun k =>
      if k = "wipe.clear_fields" then ["keywords", "keywords"] else [] }

/-- C9, counterexample: with the configured list of N = 2 field names
`["keywords", "keywords"]`, the change-set has a single entry (the dict
comprehension collapses duplicate keys), not exactly N entries as the
claim states. -/
theorem clear_fields_count_counterexample :
    (envD.configList ("wipe" ++ ".clear_fields")).length = 2 ∧
    getTicketChanges .fieldsClear envD reqE ticketW "wipe" =
      .ok ⟨reqE, [("keywords", some "")], []⟩ ∧
    (⟨reqE, [("keywords", some "")], []⟩ : OpResult).changes.length ≠
      (envD.configList ("wipe" ++ ".clear_fields")).length :=
  ⟨by decide, by decide, by decide⟩

/-- C9, amended: for every configured list of field names and every
ticket, the clear-fields `get_ticket_changes` returns, regardless of the
fields' prior values, a change-set whose keys are exactly the distinct
configured field names, each mapped to the empty string; it has one entry
per *distinct* configured name (so exactly N entries whenever the N
configured names are pairwise distinct). -/
theorem clear_fields_changes_spec (env : Env) (req : Req) (ticket : Ticket)
    (action : String) :
    getTicketChanges .fieldsClear env req ticket action =
      .ok ⟨req, clearChanges (env.configList (action ++ ".clear_fields")), []⟩ ∧
    (∀ p ∈ clearChanges (env.configList (action ++ ".clear_fields")), p.2 = some "") ∧
    (∀ k, k ∈ (clearChanges (env.configList (action ++ ".clear_fields"))).map Prod.fst ↔
       k ∈ env.configList (action ++ ".clear_fields")) ∧
    (clearChanges (env.configList (action ++ ".clear_fields"))).length =
      (env.configList (action ++ ".clear_fields")).dedup.length :=
  ⟨rfl,
   (clearChanges_spec (env.configList (action ++ ".clear_fields"))).2.2.1,
   (clearChanges_spec (env.configList (action ++ ".clear_fields"))).2.1,
   (clearChanges_spec (env.configList (action ++ ".clear_fields"))).2.2.2⟩

/-- C9, witness: the amended theorem at the duplicated configuration of
`envD`: one entry, mapped to the empty string, and the count equals the
number of distinct names. -/
theorem clear_fields_changes_spec_witness :
    getTicketChanges .fieldsClear envD reqE ticketW "wipe" =
      .ok ⟨reqE, clearChanges (envD.configList ("wipe" ++ ".clear_fields")), []⟩ ∧
    (clearChanges (envD.configList ("wipe" ++ ".clear_fields"))).length =
      (envD.configList ("wipe" ++ ".clear_fields")).dedup.length :=
  ⟨(clear_fields_changes_spec envD reqE ticketW "wipe").1,
   (clear_fields_changes_spec envD reqE ticketW "wipe").2.2.2⟩

/-! ### C10: set-state and milestone-reset hints -/

/-- The spec-side condition for a milestone reset: the ticket names a
milestone, that milestone exists, and it is marked completed. -/
def milestoneCompleted (env : Env) (ticket : Ticket) : Prop :=
  ∃ name m, ticket.fields "milestone" = some name ∧ name ≠ "" ∧
    env.milestones name = some m ∧ m.is_completed = true

theorem milestoneHint_ne_empty : ¬ ("The milestone will be reset." : String) = "" := by
  decide

theorem hintToChangeState_ne_empty (ticket : Ticket) (status : String) :
    hintToChangeState ticket status ≠ "" := by
  unfold hintToChangeState
  cases ticket.fields "status" <;>
  · intro h
    apply_fun String.length at h
    simp [String.length_append] at h
    exact absurd h.2 (by decide)

/-- C10: for the set-state and milestone-reset operations the rendered
hint is non-empty exactly when the computed change-set is non-empty:
set-state yields `{status: newstate}` exactly when the action's
`newstate` differs from the ticket's current status, and milestone-reset
yields `{milestone: ""}` exactly when the ticket's named milestone exists
and is marked completed. -/
theorem set_state_reset_milestone_hint_iff (env : Env) (req : Req) (ticket : Ticket)
    (action : String) :
    ((setStateRender env req ticket action).2.2 = "" ↔
       setStateChanges env ticket action = []) ∧
    (setStateChanges env ticket action =
       [("status", some (env.actions action).newstate)] ↔
       ticket.fields "status" ≠ some (env.actions action).newstate) ∧
    ((resetMilestoneRender env req ticket action).2.2 = "" ↔
       (resetMilestoneChanges env ticket).1 = []) ∧
    ((resetMilestoneChanges env ticket).1 = [("milestone", some "")] ↔
       milestoneCompleted env ticket) := by
  refine ⟨?_, ?_, ?_, ?_⟩
  · by_cases h : ticket.fields "status" = some (env.actions action).newstate <;>
      simp [setStateRender, setStateChanges, h, hintToChangeState_ne_empty]
  · by_cases h : ticket.fields "status" = some (env.actions action).newstate <;>
      simp [setStateChanges, h]
  · cases hm : ticket.fields "milestone" with
    | none => simp [resetMilestoneRender, resetMilestoneChanges, fetchMilestone, hm]
    | some name =>
      by_cases hn : name = ""
      · simp [resetMilestoneRender, resetMilestoneChanges, fetchMilestone, hm, hn]
      · cases hms : env.milestones name with
        | none =>
          simp [resetMilestoneRender, resetMilestoneChanges, fetchMilestone, hm, hn, hms]
        | some m =>
          cases hic : m.is_completed <;>
            simp [resetMilestoneRender, resetMilestoneChanges, fetchMilestone, hm, hn, hms,
                  hic, milestoneHint_ne_empty]
  · cases hm : ticket.fields "milestone" with
    | none => simp [resetMilestoneChanges, fetchMilestone, hm, milestoneCompleted]
    | some name =>
      by_cases hn : name = ""
      · simp [resetMilestoneChanges, fetchMilestone, hm, hn, milestoneCompleted]
      · cases hms : env.milestones name with
        | none => simp [resetMilestoneChanges, fetchMilestone, hm, hn, hms, milestoneCompleted]
        | some m =>
          cases hic : m.is_completed <;>
            simp [resetMilestoneChanges, fetchMilestone, hm, hn, hms, hic, milestoneCompleted]

/-- An environment with one completed milestone `rel1`. -/
def envT10 : Env :=
  { envW with milestones := fun name => if name = "rel1" then some ⟨true⟩ else none }

/-- A ticket in status `reopened` attached to milestone `rel1`. -/
def ticket10 : Ticket :=
  ⟨9, fun f => if f = "milestone" then some "rel1"
       else if f = "status" then some "reopened" else none, true⟩

/-- C10, witness: the theorem at a concrete environment where the
action's `newstate` (`closed`) differs from the ticket's status
(`reopened`) and the ticket's milestone `rel1` is completed. -/
theorem set_state_reset_milestone_hint_iff_witness :
    ((setStateRender envT10 reqE ticket10 "resolve").2.2 = "" ↔
       setStateChanges envT10 ticket10 "resolve" = []) ∧
    (setStateChanges envT10 ticket10 "resolve" =
       [("status", some (envT10.actions "resolve").newstate)] ↔
       ticket10.fields "status" ≠ some (envT10.actions "resolve").newstate) ∧
    ((resetMilestoneRender envT10 reqE ticket10 "resolve").2.2 = "" ↔
       (resetMilestoneChanges envT10 ticket10).1 = []) ∧
    ((resetMilestoneChanges envT10 ticket10).1 = [("milestone", some "")] ↔
       milestoneCompleted envT10 ticket10) :=
  set_state_reset_milestone_hint_iff envT10 reqE ticket10 "resolve"

end AdvancedWorkflow
